import Mathlib

/-!
Verification of the symbolic legal-intelligence engine
(`src/maya_legal_intelligence/core.py`) against its specification.

The Python module is shallowly embedded: strings are `List Char`, the
regular expressions used by the engine are embedded as a small syntax
tree `RE` together with a backtracking matcher `mre` that reproduces the
semantics of Python's `re.search` / `re.findall` for the concrete
patterns appearing in the source (ordered alternation, greedy
quantifiers over character classes, word boundaries, the unanchored
start-of-string caret, case-insensitive matching).  All definitions are
executable so that concrete scenarios can be settled by evaluation.
-/

namespace MayaLegal

/-! ## Character classes (ASCII, as used by the source's patterns) -/

/-- Python regex `\w`: ASCII letters, digits, underscore. -/
def isWordCh (c : Char) : Bool := c.isAlphanum || c == '_'

/-- Python regex `\s` and `str.strip` whitespace (ASCII). -/
def isSpaceCh (c : Char) : Bool :=
  c == ' ' || c == '\t' || c == '\n' || c == '\r' || c == '\x0b' || c == '\x0c'

/-- Python regex `\d` (ASCII digits). -/
def isDigitCh (c : Char) : Bool := c.isDigit

/-- The Roman-numeral class `[IVXLCDM]` under `re.IGNORECASE`. -/
def isRomanCh (c : Char) : Bool :=
  c.toLower == 'i' || c.toLower == 'v' || c.toLower == 'x' || c.toLower == 'l' ||
  c.toLower == 'c' || c.toLower == 'd' || c.toLower == 'm'

/-- The class `[A-Z]` under `re.IGNORECASE`: any ASCII letter. -/
def isAlphaCh (c : Char) : Bool := c.isAlpha

/-- The class `[^.]`: any character other than a full stop. -/
def isNotDotCh (c : Char) : Bool := !(c == '.')

/-- The metacharacter `.` without `re.DOTALL`: anything but a newline. -/
def isAnyCh (c : Char) : Bool := !(c == '\n')

/-- The class `[\d,]`. -/
def isDigitCommaCh (c : Char) : Bool := c.isDigit || c == ','

/-! ## Python string helpers -/

/-- Python `content.split('\n')`: the empty string yields one empty line. -/
def splitNl : List Char → List (List Char)
  | [] => [[]]
  | c :: rest =>
    if c == '\n' then [] :: splitNl rest
    else
      match splitNl rest with
      | [] => [[c]]
      | l :: ls => (c :: l) :: ls

/-- Python `str.strip()` (whitespace on both ends removed). -/
def pyStrip (s : List Char) : List Char :=
  ((s.dropWhile isSpaceCh).reverse.dropWhile isSpaceCh).reverse

/-- Python `str.lower()` on ASCII text. -/
def lowerL (s : List Char) : List Char := s.map Char.toLower

/-- Python `needle in hay` (substring containment). -/
def hasSub (needle : List Char) : List Char → Bool
  | [] => needle.isEmpty
  | c :: rest => needle.isPrefixOf (c :: rest) || hasSub needle rest

/-- Helper for `pyCount`: scan left to right; after a hit, skip the rest
of the needle (`cool` characters) so that counted hits never overlap. -/
def pyCountAux (needle : List Char) : List Char → Nat → Nat
  | [], _ => 0
  | c :: rest, 0 =>
    if needle.isPrefixOf (c :: rest) then 1 + pyCountAux needle rest (needle.length - 1)
    else pyCountAux needle rest 0
  | _ :: rest, cool + 1 => pyCountAux needle rest cool

/-- Python `hay.count(needle)`: non-overlapping left-to-right occurrence
count; for the empty needle Python returns `len(hay) + 1`. -/
def pyCount (needle hay : List Char) : Nat :=
  if needle.isEmpty then hay.length + 1 else pyCountAux needle hay 0

/-! ## Regular expressions

Only the constructs appearing in the source module are embedded:
literal characters (compared case-insensitively, since every pattern
with letters is compiled with `re.IGNORECASE`), character classes,
sequencing, ordered alternation, greedy `*` and `+` over classes, the
word boundary `\b`, and the start anchor `^` (no `re.MULTILINE` is used
by the source, so `^` matches only at the beginning of the string). -/

inductive RE where
  | eps : RE
  | lit : Char → RE
  | cls : (Char → Bool) → RE
  | seq : RE → RE → RE
  | alt : RE → RE → RE
  | star : (Char → Bool) → RE
  | plus : (Char → Bool) → RE
  | wordB : RE
  | caret : RE

/-- Word boundary test between the previous character (`none` at the
start of the string) and the head of the remaining input. -/
def atBoundary (p : Option Char) (s : List Char) : Bool :=
  let l := match p with | none => false | some c => isWordCh c
  let r := match s with | [] => false | c :: _ => isWordCh c
  l != r

/-- Greedy Kleene star over a character class in continuation style:
consume as many class characters as possible, backtracking one at a
time into the continuation `k` (which receives the previous character
and the remaining input). -/
def mstar (cl : Char → Bool)
    (k : Option Char → List Char → Option (Option Char × List Char)) :
    Option Char → List Char → Option (Option Char × List Char)
  | p, [] => k p []
  | p, c :: rest =>
    if cl c then
      match mstar cl k (some c) rest with
      | some r => some r
      | none => k p (c :: rest)
    else k p (c :: rest)

/-- Backtracking matcher in continuation style.  `mre r p s k` attempts
to match `r` at the beginning of `s`, where `p` is the character just
before `s` (`none` at the start of the string); on success the
continuation `k` receives the updated context.  Alternatives are tried
in order and quantifiers greedily, reproducing which match Python's
backtracking engine returns. -/
def mre : RE → Option Char → List Char →
    (Option Char → List Char → Option (Option Char × List Char)) →
    Option (Option Char × List Char)
  | .eps, p, s, k => k p s
  | .lit ch, _, s, k =>
    match s with
    | [] => none
    | c :: rest => if c.toLower == ch then k (some c) rest else none
  | .cls cl, _, s, k =>
    match s with
    | [] => none
    | c :: rest => if cl c then k (some c) rest else none
  | .seq a b, p, s, k => mre a p s (fun p2 s2 => mre b p2 s2 k)
  | .alt a b, p, s, k =>
    match mre a p s k with
    | some r => some r
    | none => mre b p s k
  | .star cl, p, s, k => mstar cl k p s
  | .plus cl, _, s, k =>
    match s with
    | [] => none
    | c :: rest => if cl c then mstar cl k (some c) rest else none
  | .wordB, p, s, k => if atBoundary p s then k p s else none
  | .caret, p, s, k =>
    match p with
    | none => k p s
    | some _ => none

/-- Python `re.search`: try the pattern at every position from left to
right; on success return the matched substring (`group(0)`), the last
character of the match (context for resuming a scan) and the remaining
input after the match. -/
def searchAux (r : RE) : Option Char → List Char →
    Option (List Char × Option Char × List Char)
  | p, s =>
    match mre r p s (fun p2 s2 => some (p2, s2)) with
    | some (p2, s2) => some (s.take (s.length - s2.length), p2, s2)
    | none =>
      match s with
      | [] => none
      | c :: rest => searchAux r (some c) rest

/-- The matched substring of the first (leftmost) match, if any. -/
def reSearch (r : RE) (s : List Char) : Option (List Char) :=
  (searchAux r none s).map (fun t => t.1)

/-- Helper for `countMatches`; the fuel dominates the number of
scanning steps (each iteration consumes at least one character). -/
def countAux (r : RE) : Option Char → List Char → Nat → Nat
  | _, _, 0 => 0
  | p, s, fuel + 1 =>
    match searchAux r p s with
    | none => 0
    | some (m, p2, rest) =>
      if m.isEmpty then
        match rest with
        | [] => 1
        | c :: rest2 => 1 + countAux r (some c) rest2 fuel
      else 1 + countAux r p2 rest fuel

/-- Python `len(re.findall(pattern, s))`: number of non-overlapping
matches scanning left to right (an empty match advances by one). -/
def countMatches (r : RE) (s : List Char) : Nat :=
  countAux r none s (s.length + 1)

/-- First pattern in the list that matches anywhere in the string wins;
later patterns are not tried (the decision/impact per-line policy). -/
def firstSearch : List RE → List Char → Option (List Char)
  | [], _ => none
  | r :: rs, s =>
    match reSearch r s with
    | some m => some m
    | none => firstSearch rs s

/-- Literal word as a pattern (letters stored lowercase; matching is
case-insensitive). -/
def litSeq : List Char → RE
  | [] => .eps
  | [c] => .lit c
  | c :: rest => .seq (.lit c) (litSeq rest)

/-- Literal string pattern. -/
def wstr (s : String) : RE := litSeq s.data

/-- Optional single character, greedy (`c?`). -/
def optCh (c : Char) : RE := .alt (.lit c) .eps

/-! ## The pattern catalog of `_initialize_legal_patterns` -/

/-- Pattern `\bArticle\s+[IVXLCDM]+` (case-insensitive). -/
def reDomArticle : RE :=
  .seq .wordB (.seq (wstr "article") (.seq (.plus isSpaceCh) (.plus isRomanCh)))

/-- Pattern `\bAmendment\s+\d+`. -/
def reDomAmendment : RE :=
  .seq .wordB (.seq (wstr "amendment") (.seq (.plus isSpaceCh) (.plus isDigitCh)))

/-- Pattern `\bSection\s+\d+`. -/
def reDomSection : RE :=
  .seq .wordB (.seq (wstr "section") (.seq (.plus isSpaceCh) (.plus isDigitCh)))

/-- Pattern `\bPenal\s+Code`. -/
def reDomPenalCode : RE :=
  .seq .wordB (.seq (wstr "penal") (.seq (.plus isSpaceCh) (wstr "code")))

/-- Pattern `\bCriminal\s+Code`. -/
def reDomCriminalCode : RE :=
  .seq .wordB (.seq (wstr "criminal") (.seq (.plus isSpaceCh) (wstr "code")))

/-- Pattern `\bfelony`. -/
def reDomFelony : RE := .seq .wordB (wstr "felony")

/-- Pattern `\bmisdemeanor`. -/
def reDomMisdemeanor : RE := .seq .wordB (wstr "misdemeanor")

/-- Pattern `\bCivil\s+Code`. -/
def reDomCivilCode : RE :=
  .seq .wordB (.seq (wstr "civil") (.seq (.plus isSpaceCh) (wstr "code")))

/-- Pattern `\bliability`. -/
def reDomLiability : RE := .seq .wordB (wstr "liability")

/-- Pattern `\bdamages`. -/
def reDomDamages : RE := .seq .wordB (wstr "damages")

/-- Pattern `\bcontract`. -/
def reDomContract : RE := .seq .wordB (wstr "contract")

/-- Pattern `\bagreement`. -/
def reDomAgreement : RE := .seq .wordB (wstr "agreement")

/-- Pattern `\bcommercial`. -/
def reDomCommercial : RE := .seq .wordB (wstr "commercial")

/-- Pattern `\bRule\s+\d+`. -/
def reDomRule : RE :=
  .seq .wordB (.seq (wstr "rule") (.seq (.plus isSpaceCh) (.plus isDigitCh)))

/-- Pattern `\bprocedure`. -/
def reDomProcedure : RE := .seq .wordB (wstr "procedure")

/-- Pattern `\bmotion`. -/
def reDomMotion : RE := .seq .wordB (wstr "motion")

/-- One entry of the domain catalog built by `_initialize_legal_patterns`. -/
structure DomainDef where
  name : String
  keywords : List String
  patterns : List RE
  symbol : String
  symbolName : String

/-- The `constitutional` domain definition. -/
def constitutionalDef : DomainDef :=
  { name := "constitutional"
    keywords := ["constitution", "amendment", "fundamental", "rights", "freedom", "liberty"]
    patterns := [reDomArticle, reDomAmendment, reDomSection]
    symbol := "⟐", symbolName := "STRUCTURE" }

/-- The `criminal` domain definition. -/
def criminalDef : DomainDef :=
  { name := "criminal"
    keywords := ["crime", "criminal", "prosecution", "defendant", "guilty", "sentence"]
    patterns := [reDomPenalCode, reDomCriminalCode, reDomFelony, reDomMisdemeanor]
    symbol := "⟡", symbolName := "IMPACT" }

/-- The `civil` domain definition. -/
def civilDef : DomainDef :=
  { name := "civil"
    keywords := ["plaintiff", "defendant", "damages", "liability", "tort", "negligence"]
    patterns := [reDomCivilCode, reDomLiability, reDomDamages]
    symbol := "◈", symbolName := "DECISION" }

/-- The `commercial` domain definition. -/
def commercialDef : DomainDef :=
  { name := "commercial"
    keywords := ["contract", "agreement", "commercial", "business", "trade", "commerce"]
    patterns := [reDomContract, reDomAgreement, reDomCommercial]
    symbol := "⧈", symbolName := "FLOW" }

/-- The `procedural` domain definition. -/
def proceduralDef : DomainDef :=
  { name := "procedural"
    keywords := ["procedure", "process", "filing", "motion", "hearing", "trial"]
    patterns := [reDomRule, reDomProcedure, reDomMotion]
    symbol := "⧈", symbolName := "FLOW" }

/-- The catalog of `_initialize_legal_patterns`, in its fixed
(insertion) order. -/
def legalPatterns : List DomainDef :=
  [constitutionalDef, criminalDef, civilDef, commercialDef, proceduralDef]

/-- The five domain identifiers in catalog order. -/
def domainNames : List String :=
  ["constitutional", "criminal", "civil", "commercial", "procedural"]

/-! ## Domain determination (`_determine_legal_domain`) -/

/-- Score of one domain definition on a document: keyword substring
occurrence counts on the lowercased document plus case-insensitive
regex match counts. -/
def domainScore (content : List Char) (d : DomainDef) : Nat :=
  (d.keywords.map (fun k => pyCount k.data (lowerL content))).sum +
  (d.patterns.map (fun p => countMatches p content)).sum

/-- The semantics of Python's `max(scores, key=scores.get)` on an
insertion-ordered table: keep the current best, replace only on a
strictly greater value, so the first maximal entry wins. -/
def pickMax (best : String × Nat) : List (String × Nat) → String × Nat
  | [] => best
  | p :: rest => if p.2 > best.2 then pickMax p rest else pickMax best rest

/-- `_determine_legal_domain`: score every catalog domain on the whole
document and return the first domain with the maximal score, or
`"general"` if the catalog were empty. -/
def determineLegalDomain (content : String) : String :=
  match legalPatterns.map (fun d => (d.name, domainScore content.data d)) with
  | [] => "general"
  | p :: rest => (pickMax p rest).1

/-- Score of a catalog domain looked up by its identifier (used to
state document-level properties of `determineLegalDomain`). -/
def domainScoreByName (content : List Char) (n : String) : Nat :=
  match legalPatterns.find? (fun d => d.name == n) with
  | some d => domainScore content d
  | none => 0

/-! ## Complexity scorers -/

/-- Pattern `\b(TITLE|CHAPTER)\b`. -/
def reTitleChapter : RE :=
  .seq .wordB (.seq (.alt (wstr "title") (wstr "chapter")) .wordB)

/-- Pattern `\b(ARTICLE|SECTION)\b`. -/
def reArticleSection : RE :=
  .seq .wordB (.seq (.alt (wstr "article") (wstr "section")) .wordB)

/-- Pattern `§|\d+\.` (the only pattern compiled without
`re.IGNORECASE`; it contains no letters, so the matcher coincides). -/
def reSectSignOrNumDot : RE :=
  .alt (.lit '§') (.seq (.plus isDigitCh) (.lit '.'))

/-- `_calculate_structural_complexity`: base 1 plus one mutually
exclusive tier bonus, clamped to 10. -/
def calcStructuralComplexity (text : List Char) : Nat :=
  let bonus :=
    if (reSearch reTitleChapter text).isSome then 3
    else if (reSearch reArticleSection text).isSome then 2
    else if (reSearch reSectSignOrNumDot text).isSome then 1
    else 0
  min (1 + bonus) 10

/-- Pattern `\b(shall|must|may|should|will)\b`. -/
def reModal : RE :=
  .seq .wordB (.seq
    (.alt (wstr "shall") (.alt (wstr "must") (.alt (wstr "may")
      (.alt (wstr "should") (wstr "will"))))) .wordB)

/-- Pattern `\b\d+\s+(days?|weeks?|months?|years?)\b`. -/
def reTimeConstraint : RE :=
  .seq .wordB (.seq (.plus isDigitCh) (.seq (.plus isSpaceCh) (.seq
    (.alt (.seq (wstr "day") (optCh 's'))
      (.alt (.seq (wstr "week") (optCh 's'))
        (.alt (.seq (wstr "month") (optCh 's'))
          (.seq (wstr "year") (optCh 's'))))) .wordB)))

/-- `_calculate_flow_complexity`: base 1, plus the modal-verb count,
plus twice the time-constraint count, clamped to 15. -/
def calcFlowComplexity (text : List Char) : Nat :=
  min (1 + countMatches reModal text + 2 * countMatches reTimeConstraint text) 15

/-- Pattern `\b(if|when|unless|provided|except)\b`. -/
def reConditional : RE :=
  .seq .wordB (.seq
    (.alt (wstr "if") (.alt (wstr "when") (.alt (wstr "unless")
      (.alt (wstr "provided") (wstr "except"))))) .wordB)

/-- Pattern `\b(and|or|but|however|nevertheless)\b`. -/
def reLogicalOp : RE :=
  .seq .wordB (.seq
    (.alt (wstr "and") (.alt (wstr "or") (.alt (wstr "but")
      (.alt (wstr "however") (wstr "nevertheless"))))) .wordB)

/-- `_calculate_decision_complexity`: base 2, plus twice the
conditional-keyword count, plus the logical-connective count, clamped
to 20. -/
def calcDecisionComplexity (text : List Char) : Nat :=
  min (2 + 2 * countMatches reConditional text + countMatches reLogicalOp text) 20

/-- The fixed severity word list of `_calculate_impact_complexity`. -/
def severityWords : List String :=
  ["severe", "significant", "major", "critical", "substantial"]

/-- Pattern `\$[\d,]+|\b\d+\s*dollars?\b`. -/
def reMonetary : RE :=
  .alt (.seq (.lit '$') (.plus isDigitCommaCh))
    (.seq .wordB (.seq (.plus isDigitCh) (.seq (.star isSpaceCh)
      (.seq (wstr "dollar") (.seq (optCh 's') .wordB)))))

/-- `_calculate_impact_complexity`: base 3, plus 2 per severity word
present as a substring of the lowercased line, plus 3 per monetary
match, clamped to 25. -/
def calcImpactComplexity (text : List Char) : Nat :=
  min (3 +
    2 * (severityWords.filter (fun w => hasSub w.data (lowerL text))).length +
    3 * countMatches reMonetary text) 25

/-! ## The element record (`LegalElement` dataclass) -/

/-- One extracted legal document element. -/
structure LegalElement where
  filePath : String
  name : String
  symbol : String
  symbolName : String
  lineStart : Nat
  lineEnd : Nat
  complexityScore : Nat
  description : String
  contentSnippet : String
  elementType : String
  legalDomain : String
  jurisdiction : String := "multi"
deriving Repr, DecidableEq

/-! ## The four category extractors

Each extractor of the source iterates `for i, line in enumerate(lines)`
and produces a per-line batch of elements; `extractLoop` is that loop
skeleton, shared by all four. -/

/-- The `enumerate` loop skeleton shared by the four extractors. -/
def extractLoop (perLine : Nat → List Char → List LegalElement) :
    Nat → List (List Char) → List LegalElement
  | _, [] => []
  | i, l :: rest => perLine i l ++ extractLoop perLine (i + 1) rest

/-- Structure pattern `^(ARTICLE|SECTION|CHAPTER|TITLE)\s+([IVXLCDM]+|\d+)`
(anchored: `re.search` without `re.MULTILINE` matches `^` only at the
start of the stripped line). -/
def sectionPattern1 : RE :=
  .seq .caret (.seq
    (.alt (wstr "article") (.alt (wstr "section") (.alt (wstr "chapter") (wstr "title"))))
    (.seq (.plus isSpaceCh) (.alt (.plus isRomanCh) (.plus isDigitCh))))

/-- Structure pattern `^(§\s*\d+)`. -/
def sectionPattern2 : RE :=
  .seq .caret (.seq (.lit '§') (.seq (.star isSpaceCh) (.plus isDigitCh)))

/-- Structure pattern `^(\d+\.\s*[A-Z][^.]*)`. -/
def sectionPattern3 : RE :=
  .seq .caret (.seq (.plus isDigitCh) (.seq (.lit '.')
    (.seq (.star isSpaceCh) (.seq (.cls isAlphaCh) (.star isNotDotCh)))))

/-- The three structure patterns of `_analyze_document_structure`. -/
def sectionPatterns : List RE := [sectionPattern1, sectionPattern2, sectionPattern3]

/-- Element built by `_analyze_document_structure` for a match `m` on
line `i` (0-based). -/
def mkStructElem (fp content : String) (i : Nat) (line : List Char) (m : List Char) :
    LegalElement :=
  { filePath := fp
    name := String.mk m
    symbol := "⟐"
    symbolName := "STRUCTURE"
    lineStart := i + 1
    lineEnd := i + 1
    complexityScore := calcStructuralComplexity line
    description := "Legal document structure: " ++ String.mk m
    contentSnippet := String.mk (pyStrip line)
    elementType := "structure"
    legalDomain := determineLegalDomain content
    jurisdiction := "multi" }

/-- Per-line body of `_analyze_document_structure`: each of the three
patterns is tried independently on the stripped line; every pattern
that matches contributes one element. -/
def structLine (fp content : String) (i : Nat) (line : List Char) : List LegalElement :=
  sectionPatterns.filterMap fun pat =>
    (reSearch pat (pyStrip line)).map (mkStructElem fp content i line)

/-- `_analyze_document_structure`. -/
def analyzeDocumentStructure (fp content : String) (lines : List (List Char)) :
    List LegalElement :=
  extractLoop (structLine fp content) 0 lines

/-- Flow pattern `\b(shall|must|may|should)\s+\w+`. -/
def flowPattern1 : RE :=
  .seq .wordB (.seq
    (.alt (wstr "shall") (.alt (wstr "must") (.alt (wstr "may") (wstr "should"))))
    (.seq (.plus isSpaceCh) (.plus isWordCh)))

/-- Flow pattern `\b(procedure|process|method|steps)\b`. -/
def flowPattern2 : RE :=
  .seq .wordB (.seq
    (.alt (wstr "procedure") (.alt (wstr "process") (.alt (wstr "method") (wstr "steps"))))
    .wordB)

/-- Flow pattern `\b(filing|submission|application)\b`. -/
def flowPattern3 : RE :=
  .seq .wordB (.seq
    (.alt (wstr "filing") (.alt (wstr "submission") (wstr "application"))) .wordB)

/-- Flow pattern `\b(within\s+\d+\s+days)\b`. -/
def flowPattern4 : RE :=
  .seq .wordB (.seq (wstr "within") (.seq (.plus isSpaceCh)
    (.seq (.plus isDigitCh) (.seq (.plus isSpaceCh) (.seq (wstr "days") .wordB)))))

/-- The four flow patterns of `_analyze_legal_flows`. -/
def flowPatterns : List RE := [flowPattern1, flowPattern2, flowPattern3, flowPattern4]

/-- Element built by `_analyze_legal_flows`. -/
def mkFlowElem (fp content : String) (i : Nat) (line : List Char) (m : List Char) :
    LegalElement :=
  { filePath := fp
    name := String.mk m
    symbol := "⧈"
    symbolName := "FLOW"
    lineStart := i + 1
    lineEnd := i + 1
    complexityScore := calcFlowComplexity line
    description := "Legal process flow: " ++ String.mk m
    contentSnippet := String.mk (pyStrip line)
    elementType := "flow"
    legalDomain := determineLegalDomain content
    jurisdiction := "multi" }

/-- Per-line body of `_analyze_legal_flows`: for each of the four
patterns, only the first occurrence on the (unstripped) line is
emitted (`break` after the first `finditer` hit), so each pattern
contributes at most one element. -/
def flowLine (fp content : String) (i : Nat) (line : List Char) : List LegalElement :=
  flowPatterns.filterMap fun pat =>
    (reSearch pat line).map (mkFlowElem fp content i line)

/-- `_analyze_legal_flows`. -/
def analyzeLegalFlows (fp content : String) (lines : List (List Char)) :
    List LegalElement :=
  extractLoop (flowLine fp content) 0 lines

/-- Decision pattern `\b(if|when|unless|provided that)\b.*\b(then|shall|must)\b`. -/
def decisionPattern1 : RE :=
  .seq .wordB (.seq
    (.alt (wstr "if") (.alt (wstr "when") (.alt (wstr "unless") (wstr "provided that"))))
    (.seq .wordB (.seq (.star isAnyCh) (.seq .wordB (.seq
      (.alt (wstr "then") (.alt (wstr "shall") (wstr "must"))) .wordB)))))

/-- Decision pattern `\b(court\s+finds|court\s+determines|court\s+decides)\b`. -/
def decisionPattern2 : RE :=
  .seq .wordB (.seq
    (.alt (.seq (wstr "court") (.seq (.plus isSpaceCh) (wstr "finds")))
      (.alt (.seq (wstr "court") (.seq (.plus isSpaceCh) (wstr "determines")))
        (.seq (wstr "court") (.seq (.plus isSpaceCh) (wstr "decides"))))) .wordB)

/-- Decision pattern `\b(guilty|not guilty|liable|not liable)\b`. -/
def decisionPattern3 : RE :=
  .seq .wordB (.seq
    (.alt (wstr "guilty") (.alt (wstr "not guilty") (.alt (wstr "liable") (wstr "not liable"))))
    .wordB)

/-- Decision pattern `\b(granted|denied|dismissed|sustained)\b`. -/
def decisionPattern4 : RE :=
  .seq .wordB (.seq
    (.alt (wstr "granted") (.alt (wstr "denied") (.alt (wstr "dismissed") (wstr "sustained"))))
    .wordB)

/-- The four decision patterns of `_analyze_legal_decisions`. -/
def decisionPatterns : List RE :=
  [decisionPattern1, decisionPattern2, decisionPattern3, decisionPattern4]

/-- Element built by `_analyze_legal_decisions`. -/
def mkDecisionElem (fp content : String) (i : Nat) (line : List Char) (m : List Char) :
    LegalElement :=
  { filePath := fp
    name := String.mk m
    symbol := "◈"
    symbolName := "DECISION"
    lineStart := i + 1
    lineEnd := i + 1
    complexityScore := calcDecisionComplexity line
    description := "Legal decision point: " ++ String.mk m
    contentSnippet := String.mk (pyStrip line)
    elementType := "decision"
    legalDomain := determineLegalDomain content
    jurisdiction := "multi" }

/-- Per-line body of `_analyze_legal_decisions`: patterns are tried in
catalog order and the first one that matches wins (`break` leaves the
pattern loop), so at most one element per line. -/
def decisionLine (fp content : String) (i : Nat) (line : List Char) : List LegalElement :=
  match firstSearch decisionPatterns line with
  | some m => [mkDecisionElem fp content i line m]
  | none => []

/-- `_analyze_legal_decisions`. -/
def analyzeLegalDecisions (fp content : String) (lines : List (List Char)) :
    List LegalElement :=
  extractLoop (decisionLine fp content) 0 lines

/-- Impact pattern `\b(penalty|fine|imprisonment|sentence)\b`. -/
def impactPattern1 : RE :=
  .seq .wordB (.seq
    (.alt (wstr "penalty") (.alt (wstr "fine") (.alt (wstr "imprisonment") (wstr "sentence"))))
    .wordB)

/-- Impact pattern `\b(damages|compensation|restitution)\b`. -/
def impactPattern2 : RE :=
  .seq .wordB (.seq
    (.alt (wstr "damages") (.alt (wstr "compensation") (wstr "restitution"))) .wordB)

/-- Impact pattern `\b(injunction|restraining order)\b`. -/
def impactPattern3 : RE :=
  .seq .wordB (.seq (.alt (wstr "injunction") (wstr "restraining order")) .wordB)

/-- Impact pattern `\b(constitutional|unconstitutional)\b`. -/
def impactPattern4 : RE :=
  .seq .wordB (.seq (.alt (wstr "constitutional") (wstr "unconstitutional")) .wordB)

/-- Impact pattern `\b(precedent|landmark|significant)\b`. -/
def impactPattern5 : RE :=
  .seq .wordB (.seq
    (.alt (wstr "precedent") (.alt (wstr "landmark") (wstr "significant"))) .wordB)

/-- The five impact patterns of `_analyze_legal_impacts`. -/
def impactPatterns : List RE :=
  [impactPattern1, impactPattern2, impactPattern3, impactPattern4, impactPattern5]

/-- Element built by `_analyze_legal_impacts`. -/
def mkImpactElem (fp content : String) (i : Nat) (line : List Char) (m : List Char) :
    LegalElement :=
  { filePath := fp
    name := String.mk m
    symbol := "⟡"
    symbolName := "IMPACT"
    lineStart := i + 1
    lineEnd := i + 1
    complexityScore := calcImpactComplexity line
    description := "High-impact legal consequence: " ++ String.mk m
    contentSnippet := String.mk (pyStrip line)
    elementType := "impact"
    legalDomain := determineLegalDomain content
    jurisdiction := "multi" }

/-- Per-line body of `_analyze_legal_impacts`: first matching pattern
in catalog order wins, at most one element per line. -/
def impactLine (fp content : String) (i : Nat) (line : List Char) : List LegalElement :=
  match firstSearch impactPatterns line with
  | some m => [mkImpactElem fp content i line m]
  | none => []

/-- `_analyze_legal_impacts`. -/
def analyzeLegalImpacts (fp content : String) (lines : List (List Char)) :
    List LegalElement :=
  extractLoop (impactLine fp content) 0 lines

/-! ## The pipeline (`analyze_legal_document`) and the report -/

/-- `analyze_legal_document`: split the content into lines and run the
four extractors in fixed order, concatenating their outputs.  The
`try`/`except` of the source has no reachable failing path (the body is
pure pattern matching), so the embedding is the total function. -/
def analyzeLegalDocument (fp content : String) : List LegalElement :=
  let lines := splitNl content.data
  analyzeDocumentStructure fp content lines ++
    (analyzeLegalFlows fp content lines ++
      (analyzeLegalDecisions fp content lines ++
        analyzeLegalImpacts fp content lines))

/-- Total element count of `_generate_legal_report`. -/
def totalElements (es : List LegalElement) : Nat := es.length

/-- Symbol distribution count of `_generate_legal_report` for one
symbol name. -/
def symbolDistribution (es : List LegalElement) (sym : String) : Nat :=
  (es.filter (fun e => e.symbolName == sym)).length

/-- Domain distribution count of `_generate_legal_report` for one
domain identifier. -/
def domainDistribution (es : List LegalElement) (d : String) : Nat :=
  (es.filter (fun e => e.legalDomain == d)).length

/-- The complexity bucket assigned by `_generate_legal_report`. -/
def complexityBucket (n : Nat) : String :=
  if n ≤ 3 then "simple"
  else if n ≤ 8 then "moderate"
  else if n ≤ 15 then "complex"
  else "very_complex"

/-- Complexity distribution count of `_generate_legal_report` for one
bucket label. -/
def complexityDistribution (es : List LegalElement) (b : String) : Nat :=
  (es.filter (fun e => complexityBucket e.complexityScore == b)).length

/-! ## Analyzer instance state (`SymbolicLegalIntelligence.__init__`) -/

/-- The mutable instance fields set up by `__init__` (`self.elements`
and `self.stats`); the pattern table and logger are immutable
per-instance values and are modelled as the top-level constants above. -/
structure AnalyzerState where
  elements : List LegalElement
  stats : List (String × Nat)
deriving Repr, DecidableEq

/-- `analyze_legal_document` as a state transformer on the analyzer
instance.  The method body reads neither `self.elements` nor
`self.stats` and assigns neither, so its state-passing translation
returns the instance state unchanged and an output depending only on
the `(file_path, content)` arguments. -/
def analyzeLegalDocumentM (st : AnalyzerState) (fp content : String) :
    List LegalElement × AnalyzerState :=
  (analyzeLegalDocument fp content, st)

/-- The per-category complexity ceiling named by the specification
(10 structure, 15 flow, 20 decision, 25 impact). -/
def categoryCeiling (t : String) : Nat :=
  if t = "structure" then 10
  else if t = "flow" then 15
  else if t = "decision" then 20
  else if t = "impact" then 25
  else 0

/-- Structure pattern 1 as quoted by the specification, i.e. without
the `^` anchor the source attaches to it.  It exists only to contrast
the spec's wording with the anchored source pattern. -/
def specStructPatternNoAnchor : RE :=
  .seq
    (.alt (wstr "article") (.alt (wstr "section") (.alt (wstr "chapter") (wstr "title"))))
    (.seq (.plus isSpaceCh) (.alt (.plus isRomanCh) (.plus isDigitCh)))

/-! ## Helper lemmas -/

theorem calcStructuralComplexity_le (l : List Char) : calcStructuralComplexity l ≤ 10 :=
  Nat.min_le_right _ _

theorem calcFlowComplexity_le (l : List Char) : calcFlowComplexity l ≤ 15 :=
  Nat.min_le_right _ _

theorem calcDecisionComplexity_le (l : List Char) : calcDecisionComplexity l ≤ 20 :=
  Nat.min_le_right _ _

theorem calcImpactComplexity_le (l : List Char) : calcImpactComplexity l ≤ 25 :=
  Nat.min_le_right _ _

theorem structLine_props {fp content : String} {i : Nat} {l : List Char} {e : LegalElement}
    (h : e ∈ structLine fp content i l) :
    e.lineStart = i + 1 ∧ e.lineEnd = i + 1 ∧ e.elementType = "structure" ∧
      e.complexityScore ≤ 10 ∧ e.legalDomain = determineLegalDomain content := by
  rw [structLine, List.mem_filterMap] at h
  obtain ⟨pat, -, hf⟩ := h
  obtain ⟨m, -, rfl⟩ := Option.map_eq_some'.mp hf
  exact ⟨rfl, rfl, rfl, calcStructuralComplexity_le l, rfl⟩

theorem flowLine_props {fp content : String} {i : Nat} {l : List Char} {e : LegalElement}
    (h : e ∈ flowLine fp content i l) :
    e.lineStart = i + 1 ∧ e.lineEnd = i + 1 ∧ e.elementType = "flow" ∧
      e.complexityScore ≤ 15 ∧ e.legalDomain = determineLegalDomain content := by
  rw [flowLine, List.mem_filterMap] at h
  obtain ⟨pat, -, hf⟩ := h
  obtain ⟨m, -, rfl⟩ := Option.map_eq_some'.mp hf
  exact ⟨rfl, rfl, rfl, calcFlowComplexity_le l, rfl⟩

theorem decisionLine_props {fp content : String} {i : Nat} {l : List Char} {e : LegalElement}
    (h : e ∈ decisionLine fp content i l) :
    e.lineStart = i + 1 ∧ e.lineEnd = i + 1 ∧ e.elementType = "decision" ∧
      e.complexityScore ≤ 20 ∧ e.legalDomain = determineLegalDomain content := by
  unfold decisionLine at h
  split at h
  · simp only [List.mem_singleton] at h
    subst h
    exact ⟨rfl, rfl, rfl, calcDecisionComplexity_le l, rfl⟩
  · simp at h

theorem impactLine_props {fp content : String} {i : Nat} {l : List Char} {e : LegalElement}
    (h : e ∈ impactLine fp content i l) :
    e.lineStart = i + 1 ∧ e.lineEnd = i + 1 ∧ e.elementType = "impact" ∧
      e.complexityScore ≤ 25 ∧ e.legalDomain = determineLegalDomain content := by
  unfold impactLine at h
  split at h
  · simp only [List.mem_singleton] at h
    subst h
    exact ⟨rfl, rfl, rfl, calcImpactComplexity_le l, rfl⟩
  · simp at h

theorem structLine_length (fp content : String) (i : Nat) (l : List Char) :
    (structLine fp content i l).length ≤ 3 := by
  unfold structLine
  exact le_trans (List.length_filterMap_le _ _) (by simp [sectionPatterns])

theorem flowLine_length (fp content : String) (i : Nat) (l : List Char) :
    (flowLine fp content i l).length ≤ 4 := by
  unfold flowLine
  exact le_trans (List.length_filterMap_le _ _) (by simp [flowPatterns])

theorem decisionLine_length (fp content : String) (i : Nat) (l : List Char) :
    (decisionLine fp content i l).length ≤ 1 := by
  unfold decisionLine
  split <;> simp

theorem impactLine_length (fp content : String) (i : Nat) (l : List Char) :
    (impactLine fp content i l).length ≤ 1 := by
  unfold impactLine
  split <;> simp

theorem mem_extractLoop {f : Nat → List Char → List LegalElement} {e : LegalElement} :
    ∀ {ls : List (List Char)} {i : Nat}, e ∈ extractLoop f i ls →
      ∃ j, ∃ l, ls[j]? = some l ∧ e ∈ f (i + j) l := by
  intro ls
  induction ls with
  | nil => intro i h; simp [extractLoop] at h
  | cons l rest ih =>
    intro i h
    simp only [extractLoop, List.mem_append] at h
    rcases h with h | h
    · exact ⟨0, l, by simp, by simpa using h⟩
    · obtain ⟨j, l2, h1, h2⟩ := ih h
      refine ⟨j + 1, l2, by simpa using h1, ?_⟩
      have hij : i + (j + 1) = i + 1 + j := by omega
      rw [hij]; exact h2

theorem extractLoop_line_bounds {f : Nat → List Char → List LegalElement}
    (hline : ∀ i l e, e ∈ f i l → e.lineStart = i + 1)
    {ls : List (List Char)} {i : Nat} {e : LegalElement}
    (h : e ∈ extractLoop f i ls) :
    i + 1 ≤ e.lineStart ∧ e.lineStart ≤ i + ls.length := by
  obtain ⟨j, l, h1, h2⟩ := mem_extractLoop h
  obtain ⟨hj, -⟩ := List.getElem?_eq_some.mp h1
  have := hline (i + j) l e h2
  omega

theorem extractLoop_count {f : Nat → List Char → List LegalElement} {k : Nat}
    (hlen : ∀ i l, (f i l).length ≤ k)
    (hline : ∀ i l e, e ∈ f i l → e.lineStart = i + 1) :
    ∀ (ls : List (List Char)) (i n : Nat),
      ((extractLoop f i ls).filter (fun e => e.lineStart == n)).length ≤ k := by
  intro ls
  induction ls with
  | nil => intro i n; simp [extractLoop]
  | cons l rest ih =>
    intro i n
    simp only [extractLoop, List.filter_append, List.length_append]
    by_cases hn : n = i + 1
    · have hB : (extractLoop f (i + 1) rest).filter (fun e => e.lineStart == n) = [] := by
        rw [List.filter_eq_nil_iff]
        intro e he
        have := (extractLoop_line_bounds hline he).1
        simp only [beq_iff_eq]
        omega
      rw [hB]
      simpa using le_trans (List.length_filter_le _ _) (hlen i l)
    · have hA : (f i l).filter (fun e => e.lineStart == n) = [] := by
        rw [List.filter_eq_nil_iff]
        intro e he
        have := hline i l e he
        simp only [beq_iff_eq]
        omega
      rw [hA]
      simpa using ih (i + 1) n

/-- Behaviour of `pickMax` on the concrete five-entry score table:
the winner is the first domain in catalog order whose score is maximal,
i.e. its score is at least every score and strictly above the scores of
all catalog-earlier domains. -/
theorem pickMax_five (s1 s2 s3 s4 s5 : Nat) :
    ((pickMax ("constitutional", s1)
        [("criminal", s2), ("civil", s3), ("commercial", s4), ("procedural", s5)]).1 =
          "constitutional" ∧ s2 ≤ s1 ∧ s3 ≤ s1 ∧ s4 ≤ s1 ∧ s5 ≤ s1) ∨
    ((pickMax ("constitutional", s1)
        [("criminal", s2), ("civil", s3), ("commercial", s4), ("procedural", s5)]).1 =
          "criminal" ∧ s1 < s2 ∧ s3 ≤ s2 ∧ s4 ≤ s2 ∧ s5 ≤ s2) ∨
    ((pickMax ("constitutional", s1)
        [("criminal", s2), ("civil", s3), ("commercial", s4), ("procedural", s5)]).1 =
          "civil" ∧ s1 < s3 ∧ s2 < s3 ∧ s4 ≤ s3 ∧ s5 ≤ s3) ∨
    ((pickMax ("constitutional", s1)
        [("criminal", s2), ("civil", s3), ("commercial", s4), ("procedural", s5)]).1 =
          "commercial" ∧ s1 < s4 ∧ s2 < s4 ∧ s3 < s4 ∧ s5 ≤ s4) ∨
    ((pickMax ("constitutional", s1)
        [("criminal", s2), ("civil", s3), ("commercial", s4), ("procedural", s5)]).1 =
          "procedural" ∧ s1 < s5 ∧ s2 < s5 ∧ s3 < s5 ∧ s4 < s5) := by
  simp only [pickMax]
  split_ifs <;>
    first
      | exact Or.inl ⟨rfl, by omega, by omega, by omega, by omega⟩
      | exact Or.inr (Or.inl ⟨rfl, by omega, by omega, by omega, by omega⟩)
      | exact Or.inr (Or.inr (Or.inl ⟨rfl, by omega, by omega, by omega, by omega⟩))
      | exact Or.inr (Or.inr (Or.inr (Or.inl ⟨rfl, by omega, by omega, by omega, by omega⟩)))
      | exact Or.inr (Or.inr (Or.inr (Or.inr ⟨rfl, by omega, by omega, by omega, by omega⟩)))

/-! ## Claim theorems -/

/-- C1: for every document text, domain determination returns the
domain whose keyword-plus-regex score is maximal, and on ties
(including the all-zero case) the first domain in the fixed catalog
order `constitutional, criminal, civil, commercial, procedural`; in
particular a document scoring equally on `commercial` and `procedural`
never yields `procedural`. -/
theorem domain_argmax_first_in_catalog (content : String) :
    (((determineLegalDomain content = "constitutional" ∧
        domainScore content.data criminalDef ≤ domainScore content.data constitutionalDef ∧
        domainScore content.data civilDef ≤ domainScore content.data constitutionalDef ∧
        domainScore content.data commercialDef ≤ domainScore content.data constitutionalDef ∧
        domainScore content.data proceduralDef ≤ domainScore content.data constitutionalDef) ∨
      (determineLegalDomain content = "criminal" ∧
        domainScore content.data constitutionalDef < domainScore content.data criminalDef ∧
        domainScore content.data civilDef ≤ domainScore content.data criminalDef ∧
        domainScore content.data commercialDef ≤ domainScore content.data criminalDef ∧
        domainScore content.data proceduralDef ≤ domainScore content.data criminalDef) ∨
      (determineLegalDomain content = "civil" ∧
        domainScore content.data constitutionalDef < domainScore content.data civilDef ∧
        domainScore content.data criminalDef < domainScore content.data civilDef ∧
        domainScore content.data commercialDef ≤ domainScore content.data civilDef ∧
        domainScore content.data proceduralDef ≤ domainScore content.data civilDef) ∨
      (determineLegalDomain content = "commercial" ∧
        domainScore content.data constitutionalDef < domainScore content.data commercialDef ∧
        domainScore content.data criminalDef < domainScore content.data commercialDef ∧
        domainScore content.data civilDef < domainScore content.data commercialDef ∧
        domainScore content.data proceduralDef ≤ domainScore content.data commercialDef) ∨
      (determineLegalDomain content = "procedural" ∧
        domainScore content.data constitutionalDef < domainScore content.data proceduralDef ∧
        domainScore content.data criminalDef < domainScore content.data proceduralDef ∧
        domainScore content.data civilDef < domainScore content.data proceduralDef ∧
        domainScore content.data commercialDef < domainScore content.data proceduralDef)) ∧
    (domainScore content.data commercialDef = domainScore content.data proceduralDef →
      determineLegalDomain content ≠ "procedural")) := by
  have h := pickMax_five (domainScore content.data constitutionalDef)
    (domainScore content.data criminalDef) (domainScore content.data civilDef)
    (domainScore content.data commercialDef) (domainScore content.data proceduralDef)
  constructor
  · exact h
  · intro heq hproc
    rcases h with ⟨h1, -, -, -, -⟩ | ⟨h1, -, -, -, -⟩ | ⟨h1, -, -, -, -⟩ |
      ⟨h1, -, -, -, -⟩ | ⟨-, -, -, -, h4⟩
    · have e : determineLegalDomain content = "constitutional" := h1
      rw [e] at hproc; exact absurd hproc (by decide)
    · have e : determineLegalDomain content = "criminal" := h1
      rw [e] at hproc; exact absurd hproc (by decide)
    · have e : determineLegalDomain content = "civil" := h1
      rw [e] at hproc; exact absurd hproc (by decide)
    · have e : determineLegalDomain content = "commercial" := h1
      rw [e] at hproc; exact absurd hproc (by decide)
    · omega

/-- C10: on every input string, domain determination returns one of the
five catalog identifiers; the `"general"` fallback of the source (taken
only when the score table is empty) is unreachable because the catalog
is a fixed non-empty table of five domains. -/
theorem determine_domain_always_in_catalog (content : String) :
    determineLegalDomain content ∈ domainNames ∧ determineLegalDomain content ≠ "general" := by
  have h := pickMax_five (domainScore content.data constitutionalDef)
    (domainScore content.data criminalDef) (domainScore content.data civilDef)
    (domainScore content.data commercialDef) (domainScore content.data proceduralDef)
  rcases h with ⟨h1, -, -, -, -⟩ | ⟨h1, -, -, -, -⟩ | ⟨h1, -, -, -, -⟩ |
    ⟨h1, -, -, -, -⟩ | ⟨h1, -, -, -, -⟩
  all_goals
    have e : determineLegalDomain content = _ := h1
    rw [e]
    exact ⟨by decide, by decide⟩

/-- C4: for every line, the impact complexity score is 3, plus 2 per
severity word of the fixed set present in the lowercased line, plus 3
per monetary-amount match, clamped to the ceiling 25 and never
negative (the scores are natural numbers). -/
theorem impact_complexity_formula (line : String) :
    calcImpactComplexity line.data =
      min (3 +
        2 * ((["severe", "significant", "major", "critical", "substantial"].filter
            (fun w => hasSub w.data (lowerL line.data))).length) +
        3 * countMatches reMonetary line.data) 25 ∧
    0 ≤ calcImpactComplexity line.data ∧ calcImpactComplexity line.data ≤ 25 :=
  ⟨rfl, Nat.zero_le _, calcImpactComplexity_le _⟩

/-- C3: on the single-line document `"The tenant must vacate within 30
days"` the Flow extractor emits exactly two elements, one matched by
the modal-verb pattern (`"must vacate"`) and one by the time-constraint
pattern (`"within 30 days"`), and both carry complexity score 4
(base 1 + 1 modal occurrence + 2 for one time constraint), because flow
scoring is computed over the entire line for each element. -/
theorem flow_scenario_two_elements (fp : String) :
    (analyzeLegalFlows fp "The tenant must vacate within 30 days"
        (splitNl ("The tenant must vacate within 30 days").data)).map
      (fun e => (e.name, e.elementType, e.complexityScore)) =
      [("must vacate", "flow", 4), ("within 30 days", "flow", 4)] := rfl

/-- C7: on empty input text the pipeline returns the empty element
list (no failure is possible: the embedding is a total function), each
of the four extractors emits no elements, and the aggregate report has
`total_elements = 0` and all symbol, domain and complexity distribution
counts zero. -/
theorem empty_input_empty_report (fp : String) :
    analyzeLegalDocument fp "" = [] ∧
    analyzeDocumentStructure fp "" (splitNl ("" : String).data) = [] ∧
    analyzeLegalFlows fp "" (splitNl ("" : String).data) = [] ∧
    analyzeLegalDecisions fp "" (splitNl ("" : String).data) = [] ∧
    analyzeLegalImpacts fp "" (splitNl ("" : String).data) = [] ∧
    totalElements (analyzeLegalDocument fp "") = 0 ∧
    (∀ sym, symbolDistribution (analyzeLegalDocument fp "") sym = 0) ∧
    (∀ d, domainDistribution (analyzeLegalDocument fp "") d = 0) ∧
    (∀ b, complexityDistribution (analyzeLegalDocument fp "") b = 0) :=
  ⟨rfl, rfl, rfl, rfl, rfl, rfl, fun _ => rfl, fun _ => rfl, fun _ => rfl⟩

/-- C9: `analyze_legal_document` retains no per-call state: its
state-passing translation leaves the instance fields (`self.elements`,
`self.stats`) unchanged, and its element list depends only on the
`(file_path, content)` arguments, never on the instance state, so
successive invocations on different documents are independent. -/
theorem analyze_document_stateless (fp content : String) (st st2 : AnalyzerState) :
    (analyzeLegalDocumentM st fp content).2 = st ∧
    (analyzeLegalDocumentM st fp content).1 = analyzeLegalDocument fp content ∧
    (analyzeLegalDocumentM st fp content).1 = (analyzeLegalDocumentM st2 fp content).1 :=
  ⟨rfl, rfl, rfl⟩

/-- C2: per-line cardinality of the four extractors on any document:
Decision and Impact emit at most one element per line (first matching
pattern in catalog order wins), Flow emits at most 4 per line (one per
flow pattern, first occurrence only) and Structure at most 3 per line
(one per structure pattern). -/
theorem per_line_cardinality (fp content : String) (n : Nat) :
    ((analyzeLegalDecisions fp content (splitNl content.data)).filter
        (fun e => e.lineStart == n)).length ≤ 1 ∧
    ((analyzeLegalImpacts fp content (splitNl content.data)).filter
        (fun e => e.lineStart == n)).length ≤ 1 ∧
    ((analyzeLegalFlows fp content (splitNl content.data)).filter
        (fun e => e.lineStart == n)).length ≤ 4 ∧
    ((analyzeDocumentStructure fp content (splitNl content.data)).filter
        (fun e => e.lineStart == n)).length ≤ 3 := by
  refine ⟨?_, ?_, ?_, ?_⟩
  · exact extractLoop_count (fun i l => decisionLine_length fp content i l)
      (fun i l e he => (decisionLine_props he).1) _ _ _
  · exact extractLoop_count (fun i l => impactLine_length fp content i l)
      (fun i l e he => (impactLine_props he).1) _ _ _
  · exact extractLoop_count (fun i l => flowLine_length fp content i l)
      (fun i l e he => (flowLine_props he).1) _ _ _
  · exact extractLoop_count (fun i l => structLine_length fp content i l)
      (fun i l e he => (structLine_props he).1) _ _ _

/-- C5 counterexample: on the line `"See ARTICLE IV for details"` the
spec's unanchored structure pattern does match (yielding
`"ARTICLE IV"`), but the source's pattern is anchored with `^` to the
start of the stripped line, so the Structure extractor emits no element
at all — refuting the claim that a match anywhere in the line emits an
element. -/
theorem structure_midline_match_emits_nothing :
    (reSearch specStructPatternNoAnchor ("See ARTICLE IV for details").data).map String.mk =
      some "ARTICLE IV" ∧
    analyzeDocumentStructure "doc" "See ARTICLE IV for details"
      (splitNl ("See ARTICLE IV for details").data) = [] :=
  ⟨rfl, rfl⟩

/-- C5 (amended): for every line on which a structure pattern matches
case-insensitively at the START of the stripped line (the source
anchors all three patterns with `^`), the Structure extractor emits one
element for that pattern whose `matched_text` is the matched
substring; a match that does not start at the beginning of the
stripped line (such as `"See ARTICLE IV for details"`) yields no
element. -/
theorem structure_anchored_match_emits (fp content : String) (i : Nat) (line : List Char)
    (pat : RE) (hp : pat ∈ sectionPatterns) (m : List Char)
    (hm : reSearch pat (pyStrip line) = some m) :
    ∃ e ∈ structLine fp content i line,
      e.name = String.mk m ∧ e.elementType = "structure" := by
  refine ⟨mkStructElem fp content i line m, ?_, rfl, rfl⟩
  rw [structLine, List.mem_filterMap]
  exact ⟨pat, hp, by rw [hm]; rfl⟩

/-- Witness for the amended C5 at the concrete line
`"ARTICLE I - Definitions"` and the first structure pattern. -/
theorem structure_anchored_match_emits_w :
    reSearch sectionPattern1 (pyStrip ("ARTICLE I - Definitions").data) =
      some ("ARTICLE I").data ∧
    ∃ e ∈ structLine "doc" "ARTICLE I - Definitions" 0 ("ARTICLE I - Definitions").data,
      e.name = String.mk ("ARTICLE I").data ∧ e.elementType = "structure" :=
  ⟨rfl, structure_anchored_match_emits "doc" "ARTICLE I - Definitions" 0
    ("ARTICLE I - Definitions").data sectionPattern1 (List.mem_cons_self _ _)
    ("ARTICLE I").data rfl⟩

/-- C6: every element extracted from a document carries the same
`legal_domain`, namely the document-level domain computed from the full
document text. -/
theorem legal_domain_is_document_level (fp content : String) (e : LegalElement)
    (he : e ∈ analyzeLegalDocument fp content) :
    e.legalDomain = determineLegalDomain content := by
  simp only [analyzeLegalDocument, List.mem_append] at he
  rcases he with h | h | h | h
  · obtain ⟨j, l, -, h2⟩ := mem_extractLoop h
    exact (structLine_props h2).2.2.2.2
  · obtain ⟨j, l, -, h2⟩ := mem_extractLoop h
    exact (flowLine_props h2).2.2.2.2
  · obtain ⟨j, l, -, h2⟩ := mem_extractLoop h
    exact (decisionLine_props h2).2.2.2.2
  · obtain ⟨j, l, -, h2⟩ := mem_extractLoop h
    exact (impactLine_props h2).2.2.2.2

/-- The single element extracted from the document
`"ARTICLE I - Definitions"` (used to witness C6 and C8). -/
def exampleStructElem : LegalElement :=
  { filePath := "doc"
    name := "ARTICLE I"
    symbol := "⟐"
    symbolName := "STRUCTURE"
    lineStart := 1
    lineEnd := 1
    complexityScore := 3
    description := "Legal document structure: ARTICLE I"
    contentSnippet := "ARTICLE I - Definitions"
    elementType := "structure"
    legalDomain := "constitutional"
    jurisdiction := "multi" }

/-- Witness for C6 at the concrete document `"ARTICLE I - Definitions"`. -/
theorem legal_domain_is_document_level_w :
    exampleStructElem ∈ analyzeLegalDocument "doc" "ARTICLE I - Definitions" ∧
    exampleStructElem.legalDomain = determineLegalDomain "ARTICLE I - Definitions" :=
  ⟨by decide, legal_domain_is_document_level "doc" "ARTICLE I - Definitions"
    exampleStructElem (by decide)⟩

/-- C8: every element emitted by any extractor has
`line_start = line_end`, a line number between 1 and the number of
lines of the text, and a complexity score between 0 and its category
ceiling (10 structure, 15 flow, 20 decision, 25 impact). -/
theorem element_bounds (fp content : String) (e : LegalElement)
    (he : e ∈ analyzeLegalDocument fp content) :
    e.lineStart = e.lineEnd ∧ 1 ≤ e.lineStart ∧
    e.lineStart ≤ (splitNl content.data).length ∧
    0 ≤ e.complexityScore ∧ e.complexityScore ≤ categoryCeiling e.elementType := by
  simp only [analyzeLegalDocument, List.mem_append] at he
  rcases he with h | h | h | h
  · have hb := extractLoop_line_bounds (fun i l e2 he2 => (structLine_props he2).1) h
    obtain ⟨j, l, -, h2⟩ := mem_extractLoop h
    obtain ⟨h1, h2', h3, h4, -⟩ := structLine_props h2
    refine ⟨by rw [h1, h2'], by omega, by omega, Nat.zero_le _, ?_⟩
    rw [h3]; exact h4
  · have hb := extractLoop_line_bounds (fun i l e2 he2 => (flowLine_props he2).1) h
    obtain ⟨j, l, -, h2⟩ := mem_extractLoop h
    obtain ⟨h1, h2', h3, h4, -⟩ := flowLine_props h2
    refine ⟨by rw [h1, h2'], by omega, by omega, Nat.zero_le _, ?_⟩
    rw [h3]; exact h4
  · have hb := extractLoop_line_bounds (fun i l e2 he2 => (decisionLine_props he2).1) h
    obtain ⟨j, l, -, h2⟩ := mem_extractLoop h
    obtain ⟨h1, h2', h3, h4, -⟩ := decisionLine_props h2
    refine ⟨by rw [h1, h2'], by omega, by omega, Nat.zero_le _, ?_⟩
    rw [h3]; exact h4
  · have hb := extractLoop_line_bounds (fun i l e2 he2 => (impactLine_props he2).1) h
    obtain ⟨j, l, -, h2⟩ := mem_extractLoop h
    obtain ⟨h1, h2', h3, h4, -⟩ := impactLine_props h2
    refine ⟨by rw [h1, h2'], by omega, by omega, Nat.zero_le _, ?_⟩
    rw [h3]; exact h4

/-- Witness for C8 at the concrete document `"ARTICLE I - Definitions"`. -/
theorem element_bounds_w :
    exampleStructElem.lineStart = exampleStructElem.lineEnd ∧
    1 ≤ exampleStructElem.lineStart ∧
    exampleStructElem.lineStart ≤ (splitNl ("ARTICLE I - Definitions" : String).data).length ∧
    0 ≤ exampleStructElem.complexityScore ∧
    exampleStructElem.complexityScore ≤ categoryCeiling exampleStructElem.elementType :=
  element_bounds "doc" "ARTICLE I - Definitions" exampleStructElem (by decide)

end MayaLegal
